import Mathlib

/-!
# Polingo practice-session controller: verification development

Shallow embedding of the client-side practice-session controller of the
Polingo single-page application (source: `frontend-app/src/App.jsx`).

Modelling conventions:
* JavaScript strings become `String` / `List Char`; array indexing
  `xs[i]` becomes `List.get?`; JS `%` on nonnegative numbers becomes
  `Nat` `%` (handlers that divide by a pool length are only stated under
  a positive-length hypothesis, since JS `x % 0` is `NaN`).
* `Math.random()` draws are threaded explicitly: `shuffleArray` takes a
  function `draws : Nat → Nat` giving, for loop index `i`, the value
  `Math.floor(Math.random() * (i + 1))` (always `≤ i` for a real draw;
  the embedding is total and tolerates arbitrary values).
* React `useState` cells become fields of `AppState`; each event handler
  becomes a pure function `AppState → ... → AppState × List Effect`,
  where the `Effect` list records, in program order, the network
  requests issued and the status-auto-hide timers cancelled/scheduled.
* An `await fetch` is a suspension point: a handler is split into an
  issue phase (before the `await`) and a resolve phase (the code after
  the `await`, applied to whatever state holds when the response
  arrives).  The transport outcome is a parameter: `some payload` for an
  HTTP-ok JSON response, `none` for a thrown network error or a non-ok
  HTTP status (the source throws on `!response.ok`, landing in the same
  `catch`).
-/

namespace Polingo

/-- A vocabulary item as served by the backend (`session` endpoint). -/
structure Word where
  id : Nat
  polish : String
  english : String
  ukrainian : String
  deriving Repr, DecidableEq

/-- A transient status message (`{ type, message }` objects in the source). -/
structure Status where
  type : String
  message : String
  deriving Repr, DecidableEq

/-- Global statistics snapshot (`GET stats` response). -/
structure Stats where
  today_percentage : Int
  trend : Int
  overall_percentage : Int
  available_words : Int
  deriving Repr, DecidableEq

/-- Conjugation statistics (`GET verbs/stats` response). -/
structure EndingsStats where
  today_percentage : Int
  overall_percentage : Int
  deriving Repr, DecidableEq

/-- The `lastAnswer` Feedback Record:
`{ userAnswer, correctAnswer, alternatives, wasCorrect, direction, skipped }`. -/
structure LastAnswer where
  userAnswer : String
  correctAnswer : String
  alternatives : List String
  wasCorrect : Bool
  direction : String
  skipped : Bool
  deriving Repr, DecidableEq

/-- A conjugation question (`GET verbs/question` response). -/
structure EndingsQuestion where
  verb_id : Nat
  pronoun : String
  options : List String
  correct_answer : String
  infinitive : String
  deriving Repr, DecidableEq

/-- `POST practice/validate` response payload. -/
structure ValidateResponse where
  was_correct : Bool
  correct_answer : String
  alternatives : List String
  stats : Stats
  deriving Repr, DecidableEq

/-- `POST practice/skip` response payload. -/
structure SkipResponse where
  correct_answer : String
  alternatives : List String
  stats : Stats
  deriving Repr, DecidableEq

/-- `POST verbs/validate` response payload. -/
structure VerbValidateResponse where
  was_correct : Bool
  correct_answer : String
  stats : EndingsStats
  deriving Repr, DecidableEq

/-- A network request issued by the controller (body fields that the
claims mention). -/
inductive Request where
  | practiceValidate (word_id : Nat) (language_set direction answer : String)
  | practiceSkip (word_id : Nat) (language_set direction answer : String)
  | verbsValidate (verb_id : Nat) (pronoun answer : String)
  | verbsQuestion
  | verbsStats
  deriving Repr, DecidableEq

/-- An observable side effect of a handler run, in program order. -/
inductive Effect where
  | fetch (r : Request)
  | cancelStatusTimer (channel : String)
  | scheduleStatusHide (channel : String) (delayMs : Nat)
  deriving Repr, DecidableEq

/-- `true` exactly on network requests. -/
def Effect.isFetch : Effect → Bool
  | .fetch _ => true
  | _ => false

/-- The `useState` cells of the `App` component that the practice
controller touches. -/
structure AppState where
  activePage : String
  languageSet : String
  wordPool : List Word
  practiceIndex : Nat
  answer : String
  practiceStatus : Option Status
  stats : Option Stats
  shuffledWords : List Word
  lastAnswer : Option LastAnswer
  pronunciationStatus : Option Status
  pronunciationIndex : Nat
  endingsQuestion : Option EndingsQuestion
  endingsStatus : Option Status
  endingsStats : Option EndingsStats
  deriving Repr, DecidableEq

/-- `STATUS_HIDE_DELAY` (milliseconds). -/
def STATUS_HIDE_DELAY : Nat := 5000

/-! ## shuffleArray (Fisher–Yates) -/

/-- One JS destructuring swap `[a[i], a[j]] = [a[j], a[i]]`.  Both
indices are in range at every call site in the source (`i ≤ len - 1`,
`j ≤ i`); out-of-range indices leave the list unchanged. -/
def listSwap (l : List α) (i j : Nat) : List α :=
  match l.get? i, l.get? j with
  | some a, some b => (l.set i b).set j a
  | _, _ => l

/-- The loop `for (let i = shuffled.length - 1; i > 0; i--)`, counting
down from `i`; `draws i` is the value of
`Math.floor(Math.random() * (i + 1))` at loop index `i`. -/
def fyFrom (draws : Nat → Nat) : Nat → List α → List α
  | 0, l => l
  | i + 1, l => fyFrom draws i (listSwap l (i + 1) (draws (i + 1)))

/-- `shuffleArray` from the source: copy the array, then run the
Fisher–Yates loop from index `length - 1` down to `1`.  (The JS copy
`[...array]` means the input itself is never mutated; the embedding is
pure, so that part is immediate.) -/
def shuffleArray (draws : Nat → Nat) (array : List α) : List α :=
  fyFrom draws (array.length - 1) array

/-! ## renderSpellingDiff -/

/-- One annotated character span produced by `renderSpellingDiff`:
class `char-correct`, `char-incorrect` or `char-missing`, carrying the
character displayed. -/
inductive CharAnn where
  | correct (c : Char) : CharAnn
  | incorrect (c : Char) : CharAnn
  | missing (c : Char) : CharAnn
  deriving Repr, DecidableEq

/-- The spans pushed by one iteration of the `renderSpellingDiff` loop
at position `i`.  `userAnswer[i]` out of range is JS `undefined`,
coerced to the empty string, hence `Option.none` here; the
`none`/`none` case cannot arise for `i < maxLen` (the JS `else` branch
would push a span holding the empty string). -/
def spellingAnnsAt (userAnswer correctAnswer : List Char) (i : Nat) : List CharAnn :=
  let userChar := userAnswer.get? i
  let correctChar := correctAnswer.get? i
  if userChar.map Char.toLower ≠ correctChar.map Char.toLower then
    (match userChar with
      | some uc => [CharAnn.incorrect uc]
      | none => []) ++
    (match userChar, correctChar with
      | none, some cc => [CharAnn.missing cc]
      | _, _ => [])
  else
    match userChar with
    | some uc => [CharAnn.correct uc]
    | none => []

/-- `renderSpellingDiff(userAnswer, correctAnswer)`: loop `i` from `0`
to `max(userAnswer.length, correctAnswer.length) - 1`, appending the
spans pushed at each position. -/
def renderSpellingDiff (userAnswer correctAnswer : List Char) : List CharAnn :=
  (List.range (max userAnswer.length correctAnswer.length)).flatMap
    (spellingAnnsAt userAnswer correctAnswer)

/-- JS `String.prototype.trim()`: drop whitespace from both ends
(modelled structurally over the character list so that it evaluates by
reduction). -/
def jsTrim (s : String) : String :=
  ⟨(((s.data.dropWhile Char.isWhitespace).reverse.dropWhile
      Char.isWhitespace).reverse)⟩

/-! ## Derived values (`practiceDirection`, `currentWord`,
`currentPronunciationWord`) -/

/-- `practiceDirection`: `"translation"` on the translation page,
`"writing"` on the writing page, `null` otherwise. -/
def practiceDirection (s : AppState) : Option String :=
  if s.activePage = "translation" then some "translation"
  else if s.activePage = "writing" then some "writing"
  else none

/-- `currentWord`: read from the shuffled pool at
`practiceIndex % shuffledWords.length` when a direction is active and
the shuffled pool is non-empty, otherwise `null`. -/
def currentWord (s : AppState) : Option Word :=
  if (practiceDirection s).isSome ∧ s.shuffledWords.length ≠ 0 then
    s.shuffledWords.get? (s.practiceIndex % s.shuffledWords.length)
  else none

/-- `currentPronunciationWord`: read from the shuffled pool at
`pronunciationIndex % shuffledWords.length` on the pronunciation page
when the shuffled pool is non-empty, otherwise `null`. -/
def currentPronunciationWord (s : AppState) : Option Word :=
  if s.activePage = "pronunciation" ∧ s.shuffledWords.length ≠ 0 then
    s.shuffledWords.get? (s.pronunciationIndex % s.shuffledWords.length)
  else none

/-! ## Effects run on dependency changes -/

/-- The `useEffect` with dependency `[wordPool.length]`: pin the
practice cursor to `0` whenever the pool is empty. -/
def onPoolLengthChange (s : AppState) : AppState :=
  if s.wordPool.length = 0 then { s with practiceIndex := 0 } else s

/-- The `useEffect` with dependencies `[activePage, languageSet,
wordPool]`.  It runs on any change to the active page, the language set
or the word-pool reference — mode entry AND background pool updates.
State part: clear the answer, statuses, feedback and both cursors, and
reshuffle the pool in the word-based practice modes (`translation`,
`writing`, `pronunciation`). -/
def onPagePoolLanguageChangeState (draws : Nat → Nat) (s : AppState) :
    AppState :=
  let s1 : AppState :=
    { s with answer := "", practiceStatus := none, practiceIndex := 0,
             pronunciationStatus := none, pronunciationIndex := 0,
             endingsStatus := none, endingsQuestion := none,
             lastAnswer := none }
  if s1.activePage = "translation" ∨ s1.activePage = "writing" ∨
      s1.activePage = "pronunciation" then
    { s1 with shuffledWords := shuffleArray draws s1.wordPool }
  else s1

/-- The full effect: the state mutations of
`onPagePoolLanguageChangeState` plus the conditional first-question
fetch in endings mode. -/
def onPagePoolLanguageChange (draws : Nat → Nat) (s : AppState) :
    AppState × List Effect :=
  (onPagePoolLanguageChangeState draws s,
   if s.activePage = "endings" then [Effect.fetch Request.verbsQuestion] else [])

/-! ## handlePracticeSubmit -/

/-- The code of `handlePracticeSubmit` after the `await fetch`, applied
to the state that holds when the response arrives.  `ans` and `dir` are
the values of `answer` and `practiceDirection` captured by the closure
at issue time; `outcome` is `some payload` for an ok response and
`none` for a transport failure or non-ok status.  After the
`try`/`catch`, both paths clear the input and advance the cursor by
`(previous + 1) % wordPool.length` (the unshuffled pool's length). -/
def handlePracticeSubmitResolve (ans dir : String)
    (outcome : Option ValidateResponse) (s : AppState) :
    AppState × List Effect :=
  let (s1, effs1) :=
    match outcome with
    | some payload =>
      let baseMessage :=
        if payload.was_correct then "Correct! Keep going."
        else "The correct answer is “" ++ payload.correct_answer ++ "”."
      ({ s with
          practiceStatus :=
            some { type := if payload.was_correct then "success" else "error",
                   message := baseMessage },
          stats := some payload.stats,
          lastAnswer :=
            some { userAnswer := ans, correctAnswer := payload.correct_answer,
                   alternatives := payload.alternatives,
                   wasCorrect := payload.was_correct, direction := dir,
                   skipped := false } },
       [Effect.scheduleStatusHide "practice" STATUS_HIDE_DELAY])
    | none =>
      ({ s with
          practiceStatus :=
            some { type := "error",
                   message := "Progress could not be recorded. Try again." } },
       [])
  ({ s1 with answer := "",
             practiceIndex := (s1.practiceIndex + 1) % s1.wordPool.length },
   effs1)

/-- `handlePracticeSubmit` as one atomic run (the response resolving
against the post-issue state): guard on `currentWord`/`practiceDirection`,
cancel the pending practice auto-hide timer, reject an empty trimmed
answer locally, otherwise send `practice/validate` and run the resolve
phase. -/
def handlePracticeSubmit (s : AppState) (outcome : Option ValidateResponse) :
    AppState × List Effect :=
  match currentWord s, practiceDirection s with
  | some w, some dir =>
    if jsTrim s.answer = "" then
      let st : Status := { type := "error", message := "Try answering before submitting." }
      ({ s with practiceStatus := some st }, [Effect.cancelStatusTimer "practice"])
    else
      let req := Request.practiceValidate w.id s.languageSet dir s.answer
      let (s', effs') := handlePracticeSubmitResolve s.answer dir outcome s
      (s', [Effect.cancelStatusTimer "practice", Effect.fetch req] ++ effs')
  | _, _ => (s, [])

/-! ## handleSkip -/

/-- The code of `handleSkip` after the `await fetch`: on success record
a skipped Feedback Record (`userAnswer = ""`, `wasCorrect = false`,
`skipped = true`), show the info status, replace statistics and schedule
the auto-hide; on failure show the retry status.  Both paths then clear
the input and advance the cursor by
`(previous + 1) % shuffledWords.length` (the shuffled pool's length). -/
def handleSkipResolve (dir : String) (outcome : Option SkipResponse)
    (s : AppState) : AppState × List Effect :=
  let (s1, effs1) :=
    match outcome with
    | some payload =>
      ({ s with
          lastAnswer :=
            some { userAnswer := "", correctAnswer := payload.correct_answer,
                   alternatives := payload.alternatives, wasCorrect := false,
                   direction := dir, skipped := true },
          practiceStatus :=
            some { type := "info", message := "Skipped. The answer was:" },
          stats := some payload.stats },
       [Effect.scheduleStatusHide "practice" STATUS_HIDE_DELAY])
    | none =>
      ({ s with
          practiceStatus :=
            some { type := "error", message := "Could not skip. Try again." } },
       [])
  ({ s1 with answer := "",
             practiceIndex := (s1.practiceIndex + 1) % s1.shuffledWords.length },
   effs1)

/-- `handleSkip` as one atomic run: guard on
`currentWord`/`practiceDirection`, cancel the pending practice timer,
send `practice/skip` with an empty-string answer, and run the resolve
phase. -/
def handleSkip (s : AppState) (outcome : Option SkipResponse) :
    AppState × List Effect :=
  match currentWord s, practiceDirection s with
  | some w, some dir =>
    let req := Request.practiceSkip w.id s.languageSet dir ""
    let (s', effs') := handleSkipResolve dir outcome s
    (s', [Effect.cancelStatusTimer "practice", Effect.fetch req] ++ effs')
  | _, _ => (s, [])

/-! ## handleEndingsAnswer -/

/-- The code of `handleEndingsAnswer` after the `await fetch`, applied
to the state that holds when the response arrives: set the
success/error status, replace the conjugation statistics, fetch the
next question immediately, then schedule the auto-hide timer; on
transport failure set the error status only.  It inspects neither
`activePage` nor `endingsQuestion`. -/
def handleEndingsAnswerResolve (outcome : Option VerbValidateResponse)
    (s : AppState) : AppState × List Effect :=
  match outcome with
  | some payload =>
    let st : Status :=
      if payload.was_correct then { type := "success", message := "Correct! Well done." }
      else { type := "error",
             message := "Incorrect. The answer was \"" ++ payload.correct_answer ++ "\"." }
    ({ s with endingsStatus := some st, endingsStats := some payload.stats },
     [Effect.fetch Request.verbsQuestion,
      Effect.scheduleStatusHide "endings" STATUS_HIDE_DELAY])
  | none =>
    let st : Status := { type := "error", message := "Could not validate answer." }
    ({ s with endingsStatus := some st }, [])

/-- `handleEndingsAnswer` as one atomic run: guard on
`endingsQuestion`, cancel the pending endings timer, send
`verbs/validate` with the question's verb id and pronoun and the
selected option, and run the resolve phase. -/
def handleEndingsAnswer (s : AppState) (selectedAnswer : String)
    (outcome : Option VerbValidateResponse) : AppState × List Effect :=
  match s.endingsQuestion with
  | none => (s, [])
  | some q =>
    let (s', effs') := handleEndingsAnswerResolve outcome s
    (s', [Effect.cancelStatusTimer "endings",
          Effect.fetch (Request.verbsValidate q.verb_id q.pronoun selectedAnswer)]
         ++ effs')

/-! ## View predicate for the spelling diff -/

/-- The condition of `renderPracticePage` under which the character
diff is rendered: `lastAnswer && !lastAnswer.wasCorrect` (outer block)
and `lastAnswer.direction === "writing" && lastAnswer.userAnswer &&
!lastAnswer.skipped` (diff line). -/
def rendersSpellingDiffView (lastAnswer : Option LastAnswer) : Bool :=
  match lastAnswer with
  | some la =>
    !la.wasCorrect && (la.direction == "writing") && (la.userAnswer != "")
      && !la.skipped
  | none => false

/-! ## Helper lemmas: swapping preserves the multiset of elements -/

theorem get_cons_set_perm : ∀ (xs : List α) (k : Nat) (h : k < xs.length) (c : α),
    (xs.get ⟨k, h⟩ :: xs.set k c).Perm (c :: xs)
  | y :: t, 0, _, c => List.Perm.swap c y t
  | y :: t, k + 1, h, c => by
    have h' : k < t.length := by simpa using h
    have ih := get_cons_set_perm t k h' c
    show (t.get ⟨k, h'⟩ :: y :: t.set k c).Perm (c :: y :: t)
    exact (List.Perm.swap y (t.get ⟨k, h'⟩) (t.set k c)).trans
      ((ih.cons y).trans (List.Perm.swap c y t))

theorem set_set_swap_perm : ∀ (l : List α) (i j : Nat) (hi : i < l.length)
    (hj : j < l.length),
    ((l.set i (l.get ⟨j, hj⟩)).set j (l.get ⟨i, hi⟩)).Perm l
  | x :: xs, 0, 0, _, _ => by simp
  | x :: xs, 0, j + 1, hi, hj => by
    have hj' : j < xs.length := by simpa using hj
    show (xs.get ⟨j, hj'⟩ :: xs.set j x).Perm (x :: xs)
    exact get_cons_set_perm xs j hj' x
  | x :: xs, i + 1, 0, hi, hj => by
    have hi' : i < xs.length := by simpa using hi
    show (xs.get ⟨i, hi'⟩ :: xs.set i x).Perm (x :: xs)
    exact get_cons_set_perm xs i hi' x
  | x :: xs, i + 1, j + 1, hi, hj => by
    have hi' : i < xs.length := by simpa using hi
    have hj' : j < xs.length := by simpa using hj
    have ih := set_set_swap_perm xs i j hi' hj'
    show (x :: (xs.set i (xs.get ⟨j, hj'⟩)).set j (xs.get ⟨i, hi'⟩)).Perm (x :: xs)
    exact ih.cons x

theorem listSwap_perm (l : List α) (i j : Nat) : (listSwap l i j).Perm l := by
  unfold listSwap
  cases hi : l.get? i with
  | none => simp
  | some a =>
    cases hj : l.get? j with
    | none => simp
    | some b =>
      simp only
      obtain ⟨hi', rfl⟩ := List.get?_eq_some.mp hi
      obtain ⟨hj', rfl⟩ := List.get?_eq_some.mp hj
      exact set_set_swap_perm l i j hi' hj'

theorem fyFrom_perm (draws : Nat → Nat) :
    ∀ (n : Nat) (l : List α), (fyFrom draws n l).Perm l
  | 0, l => List.Perm.refl l
  | n + 1, l =>
    (fyFrom_perm draws n (listSwap l (n + 1) (draws (n + 1)))).trans
      (listSwap_perm l (n + 1) (draws (n + 1)))

theorem shuffleArray_perm (draws : Nat → Nat) (array : List α) :
    (shuffleArray draws array).Perm array :=
  fyFrom_perm draws (array.length - 1) array

/-! ## Helper lemmas: positional characterisation of the spelling diff -/

/-- The single annotation the `renderSpellingDiff` loop produces at a
position `i < max(len, len)` (the `none`/`none` default is never used
at such positions). -/
def spellingAnn (u c : List Char) (i : Nat) : CharAnn :=
  match u.get? i, c.get? i with
  | some uc, some cc =>
    if uc.toLower = cc.toLower then CharAnn.correct uc else CharAnn.incorrect uc
  | some uc, none => CharAnn.incorrect uc
  | none, some cc => CharAnn.missing cc
  | none, none => CharAnn.correct ' '

theorem flatMap_eq_map_of_singleton {γ β : Type} (l : List γ) (f : γ → List β)
    (g : γ → β) (h : ∀ x ∈ l, f x = [g x]) : l.flatMap f = l.map g := by
  induction l with
  | nil => rfl
  | cons x t ih =>
    simp only [List.flatMap_cons, List.map_cons, h x (by simp)]
    rw [ih fun y hy => h y (by simp [hy])]
    rfl

theorem spellingAnnsAt_eq (u c : List Char) (i : Nat)
    (h : i < max u.length c.length) :
    spellingAnnsAt u c i = [spellingAnn u c i] := by
  unfold spellingAnnsAt spellingAnn
  cases hu : u.get? i with
  | none =>
    cases hc : c.get? i with
    | none =>
      exfalso
      have h1 := List.get?_eq_none.mp hu
      have h2 := List.get?_eq_none.mp hc
      omega
    | some cc => simp
  | some uc =>
    cases hc : c.get? i with
    | none => simp
    | some cc =>
      by_cases he : uc.toLower = cc.toLower <;> simp [he]

theorem renderSpellingDiff_eq_map (u c : List Char) :
    renderSpellingDiff u c =
      (List.range (max u.length c.length)).map (spellingAnn u c) := by
  unfold renderSpellingDiff
  exact flatMap_eq_map_of_singleton _ _ _
    fun i hi => spellingAnnsAt_eq u c i (List.mem_range.mp hi)

theorem renderSpellingDiff_length (u c : List Char) :
    (renderSpellingDiff u c).length = max u.length c.length := by
  rw [renderSpellingDiff_eq_map]; simp

theorem renderSpellingDiff_get (u c : List Char) (i : Nat)
    (h : i < max u.length c.length) :
    (renderSpellingDiff u c).get? i = some (spellingAnn u c i) := by
  rw [renderSpellingDiff_eq_map, List.get?_map, List.get?_range h]
  rfl

/-! ## Concrete fixtures used by witnesses and counterexamples -/

def w1 : Word := { id := 1, polish := "kot", english := "cat", ukrainian := "kit" }

def w2 : Word := { id := 2, polish := "pies", english := "dog", ukrainian := "pes" }

def w3 : Word := { id := 3, polish := "dom", english := "house", ukrainian := "dim" }

def statsA : Stats :=
  { today_percentage := 80, trend := 5, overall_percentage := 75,
    available_words := 120 }

def statsB : Stats :=
  { today_percentage := 60, trend := -3, overall_percentage := 70,
    available_words := 120 }

def endingsStatsA : EndingsStats :=
  { today_percentage := 50, overall_percentage := 55 }

/-- A state in translation mode: pool `[w1, w2]` shuffled to `[w2, w1]`,
cursor at `0`, a typed answer. -/
def sTrans : AppState :=
  { activePage := "translation", languageSet := "english",
    wordPool := [w1, w2], practiceIndex := 0, answer := "cat",
    practiceStatus := none, stats := some statsA,
    shuffledWords := [w2, w1], lastAnswer := none,
    pronunciationStatus := none, pronunciationIndex := 0,
    endingsQuestion := none, endingsStatus := none, endingsStats := none }

/-- A state whose word pool has just become empty. -/
def sEmpty : AppState :=
  { sTrans with wordPool := [], practiceIndex := 1, pronunciationIndex := 1 }

def q1 : EndingsQuestion :=
  { verb_id := 7, pronoun := "ja", options := ["robię", "robisz", "robi"],
    correct_answer := "robię", infinitive := "robić" }

/-- A state in endings mode with a pending question. -/
def sEndings : AppState :=
  { sTrans with
    activePage := "endings", endingsQuestion := some q1,
    shuffledWords := [], answer := "" }

def vOk : ValidateResponse :=
  { was_correct := true, correct_answer := "cat", alternatives := ["kitty"],
    stats := statsB }

def skipOk : SkipResponse :=
  { correct_answer := "cat", alternatives := ["kitty"], stats := statsB }

def verbOk : VerbValidateResponse :=
  { was_correct := true, correct_answer := "robię", stats := endingsStatsA }

/-! ## Claims -/

/-- C1: whenever the word pool is empty, the pool-change effects pin the
practice and pronunciation cursors to 0 and neither `currentWord` nor
`currentPronunciationWord` derives an item; whenever the shuffled pool
is non-empty (and the relevant mode is active), the current item is
read at index cursor `%` pool length, which is always in range, so the
derivation never indexes out of bounds. -/
theorem c1_cursor_reset_and_inbounds :
    (∀ s : AppState, s.wordPool = [] → (onPoolLengthChange s).practiceIndex = 0)
    ∧ (∀ (draws : Nat → Nat) (s : AppState), s.wordPool = [] →
        ((onPagePoolLanguageChange draws s).1.practiceIndex = 0 ∧
         (onPagePoolLanguageChange draws s).1.pronunciationIndex = 0 ∧
         currentWord (onPagePoolLanguageChange draws s).1 = none ∧
         currentPronunciationWord (onPagePoolLanguageChange draws s).1 = none))
    ∧ (∀ s : AppState, s.shuffledWords ≠ [] → (practiceDirection s).isSome →
        (s.practiceIndex % s.shuffledWords.length < s.shuffledWords.length ∧
         currentWord s =
           s.shuffledWords.get? (s.practiceIndex % s.shuffledWords.length) ∧
         (currentWord s).isSome))
    ∧ (∀ s : AppState, s.shuffledWords ≠ [] → s.activePage = "pronunciation" →
        (s.pronunciationIndex % s.shuffledWords.length < s.shuffledWords.length ∧
         currentPronunciationWord s =
           s.shuffledWords.get? (s.pronunciationIndex % s.shuffledWords.length) ∧
         (currentPronunciationWord s).isSome)) := by
  refine ⟨?_, ?_, ?_, ?_⟩
  · intro s h
    simp [onPoolLengthChange, h]
  · intro draws s h
    by_cases hp : s.activePage = "translation" ∨ s.activePage = "writing" ∨
        s.activePage = "pronunciation"
    · simp [onPagePoolLanguageChange, onPagePoolLanguageChangeState, hp, h,
        currentWord, currentPronunciationWord, practiceDirection,
        shuffleArray, fyFrom]
    · push_neg at hp
      obtain ⟨hp1, hp2, hp3⟩ := hp
      simp [onPagePoolLanguageChange, onPagePoolLanguageChangeState,
        hp1, hp2, hp3, currentWord, currentPronunciationWord,
        practiceDirection]
  · intro s hne hdir
    have hlen : 0 < s.shuffledWords.length := List.length_pos.mpr hne
    have hmod := Nat.mod_lt s.practiceIndex hlen
    refine ⟨hmod, ?_, ?_⟩
    · simp [currentWord, hdir, Nat.pos_iff_ne_zero.mp hlen]
    · simp [currentWord, hdir, Nat.pos_iff_ne_zero.mp hlen,
        List.getElem?_eq_getElem hmod]
  · intro s hne hpage
    have hlen : 0 < s.shuffledWords.length := List.length_pos.mpr hne
    have hmod := Nat.mod_lt s.pronunciationIndex hlen
    refine ⟨hmod, ?_, ?_⟩
    · simp [currentPronunciationWord, hpage, Nat.pos_iff_ne_zero.mp hlen]
    · simp [currentPronunciationWord, hpage, Nat.pos_iff_ne_zero.mp hlen,
        List.getElem?_eq_getElem hmod]

/-- Witness for C1 at concrete states. -/
theorem c1_cursor_reset_and_inbounds_witness :
    (onPoolLengthChange sEmpty).practiceIndex = 0 ∧
    (onPagePoolLanguageChange (fun i => i) sEmpty).1.practiceIndex = 0 ∧
    currentWord (onPagePoolLanguageChange (fun i => i) sEmpty).1 = none ∧
    sTrans.practiceIndex % sTrans.shuffledWords.length <
      sTrans.shuffledWords.length ∧
    (currentWord sTrans).isSome :=
  ⟨c1_cursor_reset_and_inbounds.1 sEmpty rfl,
   (c1_cursor_reset_and_inbounds.2.1 (fun i => i) sEmpty rfl).1,
   (c1_cursor_reset_and_inbounds.2.1 (fun i => i) sEmpty rfl).2.2.1,
   (c1_cursor_reset_and_inbounds.2.2.1 sTrans (by decide) (by decide)).1,
   (c1_cursor_reset_and_inbounds.2.2.1 sTrans (by decide) (by decide)).2.2⟩

/-- C2: with a current word and a non-empty trimmed answer, a failed
`practice/validate` round trip (transport error or non-ok status, both
landing in the `catch`) still advances the cursor to
`(previous + 1) % wordPool.length`, clears the answer input, reports
the generic retry status, and leaves the displayed statistics exactly
as before.  The pool is required non-empty because JS `x % 0` is `NaN`,
not a number. -/
theorem c2_failed_submit_advances_and_keeps_stats (s : AppState) (w : Word)
    (dir : String) (h1 : currentWord s = some w)
    (h2 : practiceDirection s = some dir) (h3 : jsTrim s.answer ≠ "")
    (_h4 : s.wordPool ≠ []) :
    (handlePracticeSubmit s none).1.practiceIndex =
      (s.practiceIndex + 1) % s.wordPool.length ∧
    (handlePracticeSubmit s none).1.answer = "" ∧
    (handlePracticeSubmit s none).1.practiceStatus =
      some { type := "error",
             message := "Progress could not be recorded. Try again." } ∧
    (handlePracticeSubmit s none).1.stats = s.stats := by
  simp [handlePracticeSubmit, h1, h2, h3, handlePracticeSubmitResolve]

/-- Witness for C2 at a concrete state. -/
theorem c2_failed_submit_advances_and_keeps_stats_witness :
    (handlePracticeSubmit sTrans none).1.practiceIndex =
      (sTrans.practiceIndex + 1) % sTrans.wordPool.length ∧
    (handlePracticeSubmit sTrans none).1.answer = "" ∧
    (handlePracticeSubmit sTrans none).1.practiceStatus =
      some { type := "error",
             message := "Progress could not be recorded. Try again." } ∧
    (handlePracticeSubmit sTrans none).1.stats = sTrans.stats :=
  c2_failed_submit_advances_and_keeps_stats sTrans w2 "translation"
    (by decide) (by decide) (by decide) (by decide)

/-- C3: with a current word but an answer whose trimmed text is empty,
`handlePracticeSubmit` issues no network request at all, sets the local
validation-error status, and leaves the cursor, both pools and the
statistics unchanged (for any transport outcome the never-issued
request could have had). -/
theorem c3_empty_answer_is_local (s : AppState) (w : Word) (dir : String)
    (outcome : Option ValidateResponse) (h1 : currentWord s = some w)
    (h2 : practiceDirection s = some dir) (h3 : jsTrim s.answer = "") :
    ((handlePracticeSubmit s outcome).2.all fun e => !e.isFetch) = true ∧
    (handlePracticeSubmit s outcome).1.practiceStatus =
      some { type := "error", message := "Try answering before submitting." } ∧
    (handlePracticeSubmit s outcome).1.practiceIndex = s.practiceIndex ∧
    (handlePracticeSubmit s outcome).1.wordPool = s.wordPool ∧
    (handlePracticeSubmit s outcome).1.shuffledWords = s.shuffledWords ∧
    (handlePracticeSubmit s outcome).1.stats = s.stats := by
  simp [handlePracticeSubmit, h1, h2, h3, Effect.isFetch]

/-- Witness for C3 at a concrete state (whitespace-only answer). -/
theorem c3_empty_answer_is_local_witness :
    (((handlePracticeSubmit { sTrans with answer := "  " } none).2.all
        fun e => !e.isFetch) = true) ∧
    (handlePracticeSubmit { sTrans with answer := "  " } none).1.practiceStatus =
      some { type := "error", message := "Try answering before submitting." } ∧
    (handlePracticeSubmit { sTrans with answer := "  " } none).1.practiceIndex =
      AppState.practiceIndex { sTrans with answer := "  " } ∧
    (handlePracticeSubmit { sTrans with answer := "  " } none).1.wordPool =
      AppState.wordPool { sTrans with answer := "  " } ∧
    (handlePracticeSubmit { sTrans with answer := "  " } none).1.shuffledWords =
      AppState.shuffledWords { sTrans with answer := "  " } ∧
    (handlePracticeSubmit { sTrans with answer := "  " } none).1.stats =
      AppState.stats { sTrans with answer := "  " } := by
  have h := c3_empty_answer_is_local { sTrans with answer := "  " } w2
    "translation" none (by decide) (by decide) (by decide)
  exact h

/-- C4: for every input and every sequence of random draws,
`shuffleArray` returns a permutation of its input: the same length and
the same multiset of elements.  (Non-mutation of the input is immediate
in the pure embedding — the source copies with `[...array]` before
swapping; the Fisher–Yates structure — loop `i` from last to `1`,
swap positions `i` and `draws i ∈ [0, i]` — is the definition of
`shuffleArray`/`fyFrom` itself.) -/
theorem c4_shuffleArray_permutation {α : Type} (draws : Nat → Nat)
    (array : List α) :
    (shuffleArray draws array).Perm array ∧
    (shuffleArray draws array).length = array.length ∧
    ((shuffleArray draws array : List α) : Multiset α) = (array : Multiset α) := by
  have h := shuffleArray_perm draws array
  exact ⟨h, h.length_eq, Multiset.coe_eq_coe.mpr h⟩

/-- C5 counterexample: the claim "a response arriving after the learner
has switched modes never mutates the now-inactive mode's feedback
state" is false.  Concretely: in `sEndings` an answer is submitted;
before the response arrives the learner navigates home (the page-change
effect clears `endingsStatus`); when the response then resolves, the
handler's post-`await` code sets `endingsStatus` anyway, although the
active page is `"home"` — there is no currency check in the source. -/
theorem c5_stale_response_counterexample :
    (onPagePoolLanguageChange (fun i => i)
        { sEndings with activePage := "home" }).1.activePage = "home" ∧
    (onPagePoolLanguageChange (fun i => i)
        { sEndings with activePage := "home" }).1.endingsStatus = none ∧
    (handleEndingsAnswerResolve (some verbOk)
        (onPagePoolLanguageChange (fun i => i)
          { sEndings with activePage := "home" }).1).1.endingsStatus =
      some { type := "success", message := "Correct! Well done." } := by
  decide

/-- C5 amended: the response handlers perform no currency check — a
response arriving after a mode switch is applied unconditionally:
`handleEndingsAnswer`'s post-`await` code sets the endings feedback and
statistics, and `handlePracticeSubmit`'s post-`await` code sets the
practice feedback and statistics, whatever page is active when the
response arrives. -/
theorem c5_amended_no_currency_check (s : AppState) (p : VerbValidateResponse)
    (ans dir : String) (vp : ValidateResponse) :
    (s.activePage ≠ "endings" →
      ((handleEndingsAnswerResolve (some p) s).1.endingsStatus ≠ none ∧
       (handleEndingsAnswerResolve (some p) s).1.endingsStats = some p.stats))
    ∧ (practiceDirection s = none →
      ((handlePracticeSubmitResolve ans dir (some vp) s).1.practiceStatus ≠ none ∧
       (handlePracticeSubmitResolve ans dir (some vp) s).1.stats = some vp.stats)) := by
  constructor
  · intro _
    constructor
    · simp [handleEndingsAnswerResolve]
    · simp [handleEndingsAnswerResolve]
  · intro _
    constructor
    · simp [handlePracticeSubmitResolve]
    · simp [handlePracticeSubmitResolve]

/-- Witness for the amended C5 at a concrete off-mode state. -/
theorem c5_amended_no_currency_check_witness :
    ((handleEndingsAnswerResolve (some verbOk)
        { sTrans with activePage := "home" }).1.endingsStatus ≠ none ∧
     (handleEndingsAnswerResolve (some verbOk)
        { sTrans with activePage := "home" }).1.endingsStats =
       some verbOk.stats) ∧
    ((handlePracticeSubmitResolve "cat" "translation" (some vOk)
        { sTrans with activePage := "home" }).1.practiceStatus ≠ none ∧
     (handlePracticeSubmitResolve "cat" "translation" (some vOk)
        { sTrans with activePage := "home" }).1.stats = some vOk.stats) := by
  have h := c5_amended_no_currency_check { sTrans with activePage := "home" }
    verbOk "cat" "translation" vOk
  exact ⟨h.1 (by decide), h.2 (by decide)⟩

/-- C6 counterexample: the claim "a background update of the word pool
mid-mode does not change the shuffled order of the pass in progress" is
false.  Concretely: in translation mode with shuffled order `[w2, w1]`
and cursor `1`, a background pool update (the effect's `wordPool`
dependency changed) reruns the page/pool/language effect, which
re-shuffles — here to `[w1, w2, w3]` — and resets the cursor to `0`,
while the active page never changed. -/
theorem c6_midmode_reshuffle_counterexample :
    (onPagePoolLanguageChange (fun i => i)
        { sTrans with wordPool := [w1, w2, w3], practiceIndex := 1 }).1.activePage =
      "translation" ∧
    (onPagePoolLanguageChange (fun i => i)
        { sTrans with wordPool := [w1, w2, w3], practiceIndex := 1 }).1.shuffledWords ≠
      sTrans.shuffledWords ∧
    (onPagePoolLanguageChange (fun i => i)
        { sTrans with wordPool := [w1, w2, w3], practiceIndex := 1 }).1.practiceIndex =
      0 := by
  decide

/-- C6 amended: the pool is re-shuffled on every run of the effect with
dependencies `[activePage, languageSet, wordPool]` while a word-based
practice mode is active — on mode entry AND on any mid-mode change of
the word pool or language set — and each such run also resets both
cursors to 0, so a background pool update does perturb the pass in
progress. -/
theorem c6_amended_reshuffle_on_pool_change (draws : Nat → Nat) (s : AppState)
    (h : s.activePage = "translation" ∨ s.activePage = "writing" ∨
      s.activePage = "pronunciation") :
    (onPagePoolLanguageChange draws s).1.shuffledWords =
      shuffleArray draws s.wordPool ∧
    (onPagePoolLanguageChange draws s).1.practiceIndex = 0 ∧
    (onPagePoolLanguageChange draws s).1.pronunciationIndex = 0 := by
  simp [onPagePoolLanguageChange, onPagePoolLanguageChangeState, h]

/-- Witness for the amended C6 at a concrete mid-mode pool update. -/
theorem c6_amended_reshuffle_on_pool_change_witness :
    (onPagePoolLanguageChange (fun i => i)
        { sTrans with wordPool := [w1, w2, w3], practiceIndex := 1 }).1.shuffledWords =
      shuffleArray (fun i => i)
        (AppState.wordPool { sTrans with wordPool := [w1, w2, w3], practiceIndex := 1 }) ∧
    (onPagePoolLanguageChange (fun i => i)
        { sTrans with wordPool := [w1, w2, w3], practiceIndex := 1 }).1.practiceIndex = 0 ∧
    (onPagePoolLanguageChange (fun i => i)
        { sTrans with wordPool := [w1, w2, w3], practiceIndex := 1 }).1.pronunciationIndex = 0 :=
  c6_amended_reshuffle_on_pool_change (fun i => i)
    { sTrans with wordPool := [w1, w2, w3], practiceIndex := 1 } (by decide)

/-- C7: `renderSpellingDiff` produces exactly one annotation per
position up to the longer string's length, compared case-insensitively:
a present learner character differing from the expected one is marked
incorrect (also when there is no expected character at that position);
a position beyond the learner's string with an expected character gets
a missing marker carrying the expected character; all other positions
are marked correct.  In particular `"kot"` vs `"kod"` gives correct,
correct, incorrect (no missing markers), and `"ko"` vs `"kot"` gives
correct, correct, missing `'t'`. -/
theorem c7_renderSpellingDiff_positional (u c : List Char) :
    (renderSpellingDiff u c).length = max u.length c.length ∧
    (∀ (i : Nat) (hu : i < u.length) (hc : i < c.length),
      (renderSpellingDiff u c).get? i =
        some (if (u.get ⟨i, hu⟩).toLower = (c.get ⟨i, hc⟩).toLower
              then CharAnn.correct (u.get ⟨i, hu⟩)
              else CharAnn.incorrect (u.get ⟨i, hu⟩))) ∧
    (∀ (i : Nat) (hu : i < u.length), c.length ≤ i →
      (renderSpellingDiff u c).get? i =
        some (CharAnn.incorrect (u.get ⟨i, hu⟩))) ∧
    (∀ (i : Nat) (hc : i < c.length), u.length ≤ i →
      (renderSpellingDiff u c).get? i =
        some (CharAnn.missing (c.get ⟨i, hc⟩))) ∧
    renderSpellingDiff "kot".data "kod".data =
      [CharAnn.correct 'k', CharAnn.correct 'o', CharAnn.incorrect 't'] ∧
    renderSpellingDiff "ko".data "kot".data =
      [CharAnn.correct 'k', CharAnn.correct 'o', CharAnn.missing 't'] := by
  refine ⟨renderSpellingDiff_length u c, ?_, ?_, ?_, by decide, by decide⟩
  · intro i hu hc
    have hm : i < max u.length c.length :=
      lt_of_lt_of_le hu (le_max_left u.length c.length)
    rw [renderSpellingDiff_get u c i hm]
    simp [spellingAnn, List.getElem?_eq_getElem hu, List.getElem?_eq_getElem hc]
  · intro i hu hle
    have hm : i < max u.length c.length :=
      lt_of_lt_of_le hu (le_max_left u.length c.length)
    rw [renderSpellingDiff_get u c i hm]
    simp [spellingAnn, List.getElem?_eq_getElem hu, List.getElem?_eq_none hle]
  · intro i hc hle
    have hm : i < max u.length c.length :=
      lt_of_lt_of_le hc (le_max_right u.length c.length)
    rw [renderSpellingDiff_get u c i hm]
    simp [spellingAnn, List.getElem?_eq_getElem hc, List.getElem?_eq_none hle]

/-- Witness for C7 at the spec's own examples. -/
theorem c7_renderSpellingDiff_positional_witness :
    (renderSpellingDiff "kot".data "kod".data).get? 2 =
      some (CharAnn.incorrect 't') ∧
    (renderSpellingDiff "ko".data "kot".data).get? 2 =
      some (CharAnn.missing 't') := by
  have h1 := (c7_renderSpellingDiff_positional "kot".data "kod".data).2.1 2
    (by decide) (by decide)
  have h2 := (c7_renderSpellingDiff_positional "ko".data "kot".data).2.2.2.1 2
    (by decide) (by decide)
  exact ⟨by simpa using h1, by simpa using h2⟩

/-- C8: with a current word, `handleSkip` sends an empty-string answer
to the skip endpoint; on success it records a Feedback Record with
`skipped = true`, `wasCorrect = false` and `userAnswer = ""`; and the
view's diff condition is false for every skipped Feedback Record, so no
character diff is ever computed for a skip. -/
theorem c8_skip_records_skipped (s : AppState) (w : Word) (dir : String)
    (payload : SkipResponse) (h1 : currentWord s = some w)
    (h2 : practiceDirection s = some dir) :
    Effect.fetch (Request.practiceSkip w.id s.languageSet dir "") ∈
      (handleSkip s (some payload)).2 ∧
    (handleSkip s (some payload)).1.lastAnswer =
      some { userAnswer := "", correctAnswer := payload.correct_answer,
             alternatives := payload.alternatives, wasCorrect := false,
             direction := dir, skipped := true } ∧
    (∀ la : LastAnswer, la.skipped = true →
      rendersSpellingDiffView (some la) = false) := by
  refine ⟨?_, ?_, ?_⟩
  · simp [handleSkip, h1, h2, handleSkipResolve]
  · simp [handleSkip, h1, h2, handleSkipResolve]
  · intro la hla
    simp [rendersSpellingDiffView, hla]

/-- Witness for C8 at a concrete state. -/
theorem c8_skip_records_skipped_witness :
    Effect.fetch (Request.practiceSkip w2.id sTrans.languageSet "translation" "") ∈
      (handleSkip sTrans (some skipOk)).2 ∧
    (handleSkip sTrans (some skipOk)).1.lastAnswer =
      some { userAnswer := "", correctAnswer := skipOk.correct_answer,
             alternatives := skipOk.alternatives, wasCorrect := false,
             direction := "translation", skipped := true } ∧
    (∀ la : LastAnswer, la.skipped = true →
      rendersSpellingDiffView (some la) = false) :=
  c8_skip_records_skipped sTrans w2 "translation" skipOk (by decide) (by decide)

/-- C9: on a successful validation response, `handleEndingsAnswer`
updates the conjugation statistics and issues the next-question fetch
within the same handler run, strictly before scheduling the feedback
auto-hide timer (effect positions 2 and 3 of the run's effect list), so
question advancement never waits on the feedback timer. -/
theorem c9_endings_next_question_before_timer (s : AppState)
    (q : EndingsQuestion) (sel : String) (payload : VerbValidateResponse)
    (h : s.endingsQuestion = some q) :
    (handleEndingsAnswer s sel (some payload)).1.endingsStats =
      some payload.stats ∧
    ∃ i j, i < j ∧
      (handleEndingsAnswer s sel (some payload)).2.get? i =
        some (Effect.fetch Request.verbsQuestion) ∧
      (handleEndingsAnswer s sel (some payload)).2.get? j =
        some (Effect.scheduleStatusHide "endings" STATUS_HIDE_DELAY) := by
  refine ⟨?_, 2, 3, by omega, ?_, ?_⟩
  · simp [handleEndingsAnswer, h, handleEndingsAnswerResolve]
  · simp [handleEndingsAnswer, h, handleEndingsAnswerResolve]
  · simp [handleEndingsAnswer, h, handleEndingsAnswerResolve]

/-- Witness for C9 at a concrete state. -/
theorem c9_endings_next_question_before_timer_witness :
    (handleEndingsAnswer sEndings "robię" (some verbOk)).1.endingsStats =
      some verbOk.stats ∧
    ∃ i j, i < j ∧
      (handleEndingsAnswer sEndings "robię" (some verbOk)).2.get? i =
        some (Effect.fetch Request.verbsQuestion) ∧
      (handleEndingsAnswer sEndings "robię" (some verbOk)).2.get? j =
        some (Effect.scheduleStatusHide "endings" STATUS_HIDE_DELAY) :=
  c9_endings_next_question_before_timer sEndings q1 "robię" verbOk (by decide)

/-- C10: `handlePracticeSubmit` advances the cursor modulo the
unshuffled `wordPool`'s length while `handleSkip` advances it modulo
the shuffled pool's length (for any transport outcome); whenever the
two pools have the same positive length, both actions set the cursor to
`(previous + 1)` modulo that common length. -/
theorem c10_submit_and_skip_modulus (s : AppState) (w : Word) (dir : String)
    (h1 : currentWord s = some w) (h2 : practiceDirection s = some dir)
    (h3 : jsTrim s.answer ≠ "") :
    (∀ outcome : Option ValidateResponse, s.wordPool ≠ [] →
      (handlePracticeSubmit s outcome).1.practiceIndex =
        (s.practiceIndex + 1) % s.wordPool.length) ∧
    (∀ outcome : Option SkipResponse, s.shuffledWords ≠ [] →
      (handleSkip s outcome).1.practiceIndex =
        (s.practiceIndex + 1) % s.shuffledWords.length) ∧
    (s.wordPool.length = s.shuffledWords.length → 0 < s.wordPool.length →
      ∀ (o1 : Option ValidateResponse) (o2 : Option SkipResponse),
        (handlePracticeSubmit s o1).1.practiceIndex =
          (s.practiceIndex + 1) % s.wordPool.length ∧
        (handleSkip s o2).1.practiceIndex =
          (s.practiceIndex + 1) % s.wordPool.length) := by
  refine ⟨?_, ?_, ?_⟩
  · intro outcome _
    cases outcome <;>
      simp [handlePracticeSubmit, h1, h2, h3, handlePracticeSubmitResolve]
  · intro outcome _
    cases outcome <;> simp [handleSkip, h1, h2, handleSkipResolve]
  · intro hlen _ o1 o2
    constructor
    · cases o1 <;>
        simp [handlePracticeSubmit, h1, h2, h3, handlePracticeSubmitResolve]
    · cases o2 <;> simp [handleSkip, h1, h2, handleSkipResolve, hlen]

/-- Witness for C10 at a concrete state where both pools have length 2. -/
theorem c10_submit_and_skip_modulus_witness :
    (handlePracticeSubmit sTrans none).1.practiceIndex =
      (sTrans.practiceIndex + 1) % sTrans.wordPool.length ∧
    (handleSkip sTrans (some skipOk)).1.practiceIndex =
      (sTrans.practiceIndex + 1) % sTrans.wordPool.length :=
  (c10_submit_and_skip_modulus sTrans w2 "translation" (by decide) (by decide)
      (by decide)).2.2 (by decide) (by decide) none (some skipOk)

end Polingo
